import Mathlib

/-!
Verification of the core protocol logic of `korad.c`, a command-line tool
controlling a KORAD KD3005P bench power supply over a serial line.

The C source is shallowly embedded below:
* status decoding (`main`, lines 176-186) becomes `decodeStatus`;
* response trimming (`recv`, lines 60-68) becomes `recvLine` over `List Char`;
* identity tokenisation and validation (`main`, lines 139-148) become
  `tokenize`, `idnMismatch` and `validate`, with `Option` modelling the
  undefined behaviour of `strcmp`/`strncmp` applied to a NULL `strtok` result;
* the command traffic of one invocation (`main`, lines 135-191) becomes the
  event traces `configEvents` / `sessionEvents` over structured commands
  `Cmd` whose `format` function reproduces the C format strings;
* the `nanosleep` retry loop of `send` (lines 54-57) becomes `sleepTrace`
  driven by an oracle of per-attempt outcomes;
* the process exit sites become `ExitReason`/`exitCode`.
-/

namespace Korad

/-! ## Status decoding

`main` lines 176-179:
  unsigned char status = *comm("STATUS?");
  int cv_mode     =  status & 0x01;
  int ocp_enabled =  status & 0x20;
  int out_enabled =  status & 0x40;
A C `int` used as a condition is true iff nonzero. -/

structure Status where
  cv_mode : Bool
  ocp_enabled : Bool
  out_enabled : Bool
deriving DecidableEq, Repr

def decodeStatus (b : Nat) : Status :=
  { cv_mode := decide (b &&& 0x01 ≠ 0)
    ocp_enabled := decide (b &&& 0x20 ≠ 0)
    out_enabled := decide (b &&& 0x40 ≠ 0) }

/-! ## Response trimming

`recv`, lines 60-68:
  rd = getline(&line, &sz, f);
  if (rd <= 0) DIE(2, ...);
  while (rd && line[rd-1] == '\n') line[--rd] = '\0';
  return line;
The raw bytes delivered by `getline` are modelled as a `List Char`; a
zero-length or failed read is the fatal case, modelled as `none`. -/

def stripNl (l : List Char) : List Char :=
  (l.reverse.dropWhile (fun c => c = '\n')).reverse

def recvLine (raw : List Char) : Option (List Char) :=
  if raw.length = 0 then none else some (stripNl raw)

/-- `main` line 176: `unsigned char status = *comm("STATUS?");` — the first
byte of the trimmed line, or the C string's NUL terminator (0) when the
trimmed line is empty. -/
def firstByte (l : List Char) : Nat :=
  match l with
  | [] => 0
  | c :: _ => c.toNat

/-! ## Identity tokenisation and validation

`main` lines 139-148:
  toks[0] = strtok(line, " "); toks[1..3] = strtok(NULL, " ");
  if (!force && (strcmp(toks[0], "KORAD") || strcmp(toks[1], "KD3005P") ||
                 strcmp(toks[2], "V6.6") || strncmp(toks[3], "SN:", 3)))
      DIE(1, ...);
`strtok` with delimiter `" "` skips runs of spaces and yields NULL when no
token remains; `tokenize` reproduces that token list.  Applying `strcmp` or
`strncmp` to a NULL token is undefined behaviour, modelled by `none`. -/

def tokenizeAux : List Char → List Char → List (List Char)
  | [], acc => if acc.isEmpty then [] else [acc.reverse]
  | c :: cs, acc =>
      if c = ' ' then
        if acc.isEmpty then tokenizeAux cs [] else acc.reverse :: tokenizeAux cs []
      else tokenizeAux cs (c :: acc)

def tokenize (l : List Char) : List (List Char) :=
  tokenizeAux l []

/-- The parenthesised condition of `main` line 144, with C short-circuit
evaluation: `some true` = some check failed (mismatch), `some false` = all
checks passed, `none` = a NULL token was handed to `strcmp`/`strncmp`
(undefined behaviour). -/
def idnMismatch (toks : List (List Char)) : Option Bool :=
  match toks.get? 0 with
  | none => none
  | some t0 =>
    if t0 ≠ "KORAD".data then some true else
    match toks.get? 1 with
    | none => none
    | some t1 =>
      if t1 ≠ "KD3005P".data then some true else
      match toks.get? 2 with
      | none => none
      | some t2 =>
        if t2 ≠ "V6.6".data then some true else
        match toks.get? 3 with
        | none => none
        | some t3 => some (decide (¬ "SN:".data.isPrefixOf t3))

/-- `main` lines 144-147: with `force` the whole check is skipped
(`!force && ...` short-circuits), otherwise a mismatch dies with exit
status 1.  `some true` = session proceeds, `some false` = rejected
(`DIE(1, ...)`), `none` = undefined behaviour inside the check. -/
def validate (force : Bool) (toks : List (List Char)) : Option Bool :=
  if force then some true
  else (idnMismatch toks).map (fun m => !m)

/-! ## Commands and the session's event trace

`send(wait_ns, fmt, ...)` writes the formatted command plus `'\n'` and
sleeps `wait_ns`; `comm(fmt, ...)` is `send(0, fmt, ...)` followed by
`recv(fmt)`.  Each command built in `main` is one `Cmd` constructor; its
`format` reproduces the C format string with the `%s` argument spliced. -/

inductive Cmd where
  | isetC (v : List Char)   -- "ISET1:%s"
  | vsetC (v : List Char)   -- "VSET1:%s"
  | outC (v : List Char)    -- "OUT%s"
  | ocpC (v : List Char)    -- "OCP%s"
  | savC (v : List Char)    -- "SAV%s"
  | rclC (v : List Char)    -- "RCL%s"
  | idnQ                    -- "*IDN?"
  | statusQ                 -- "STATUS?"
  | vsetQ                   -- "VSET1?"
  | isetQ                   -- "ISET1?"
  | voutQ                   -- "VOUT1?"
  | ioutQ                   -- "IOUT1?"
deriving DecidableEq, Repr

def Cmd.format : Cmd → List Char
  | .isetC v => "ISET1:".data ++ v
  | .vsetC v => "VSET1:".data ++ v
  | .outC v => "OUT".data ++ v
  | .ocpC v => "OCP".data ++ v
  | .savC v => "SAV".data ++ v
  | .rclC v => "RCL".data ++ v
  | .idnQ => "*IDN?".data
  | .statusQ => "STATUS?".data
  | .vsetQ => "VSET1?".data
  | .isetQ => "ISET1?".data
  | .voutQ => "VOUT1?".data
  | .ioutQ => "IOUT1?".data

/-- The six configuration/mutation commands of lines 150-161; the other six
are the query commands sent through `comm`. -/
def Cmd.isMutation : Cmd → Bool
  | .isetC _ | .vsetC _ | .outC _ | .ocpC _ | .savC _ | .rclC _ => true
  | _ => false

inductive Event where
  | write (c : Cmd) (waitNs : Nat)   -- send(waitNs, ...): bytes out, then settle
  | readResp (c : Cmd)               -- recv(fmt): one response line in
deriving DecidableEq, Repr

/-- `comm(fmt, ...)`, line 70-71: `send(0, fmt, ...)` then `recv(fmt)`. -/
def commE (c : Cmd) : List Event :=
  [Event.write c 0, Event.readResp c]

/-- The per-invocation request record filled in by `getopt` (lines 84-86):
`none` means the option was not given. -/
structure Config where
  iset : Option (List Char)
  uset : Option (List Char)
  out : Option (List Char)
  ocp : Option (List Char)
  save : Option (List Char)
  rest : Option (List Char)
  print_status : Bool
deriving DecidableEq, Repr

/-- One `if (x) send(...)` guard of `main` lines 150-161: no event when the
option was not given, one event built from its argument when it was. -/
def optEvent (x : Option (List Char)) (f : List Char → Event) : List Event :=
  match x with
  | none => []
  | some v => [f v]

/-- `main` lines 150-161: the optional configuration commands, each sent
with `send(50e6, ...)` (50 000 000 ns = 50 ms) and no read. -/
def configEvents (cfg : Config) : List Event :=
  optEvent cfg.iset (fun v => Event.write (Cmd.isetC v) 50000000) ++
  optEvent cfg.uset (fun v => Event.write (Cmd.vsetC v) 50000000) ++
  optEvent cfg.out (fun v => Event.write (Cmd.outC v) 50000000) ++
  optEvent cfg.ocp (fun v => Event.write (Cmd.ocpC v) 50000000) ++
  optEvent cfg.save (fun v => Event.write (Cmd.savC v) 50000000) ++
  optEvent cfg.rest (fun v => Event.write (Cmd.rclC v) 50000000)

/-- The ordered device traffic of one whole invocation that reaches the end
of `main`: the `*IDN?` exchange (line 135), the configuration commands
(lines 150-161), then the five status queries (lines 176-190) when
`print_status` is set. -/
def sessionEvents (cfg : Config) : List Event :=
  commE Cmd.idnQ ++ configEvents cfg ++
  (if cfg.print_status then
     commE Cmd.statusQ ++ commE Cmd.vsetQ ++ commE Cmd.isetQ ++
     commE Cmd.voutQ ++ commE Cmd.ioutQ
   else [])

/-- Checks one event against the timing classes of the source: every
mutation command is written with the 50 ms settle delay of lines 150-161
(in particular a non-zero one), every query command with the zero delay of
`comm` (line 70). -/
def settleOk : Event → Bool
  | .write c w => w == (if c.isMutation then 50000000 else 0)
  | .readResp _ => true

/-- Position of a mutation command in the fixed emission order of lines
150-161; queries get the out-of-band index 6. -/
def Cmd.kindIdx : Cmd → Nat
  | .isetC _ => 0
  | .vsetC _ => 1
  | .outC _ => 2
  | .ocpC _ => 3
  | .savC _ => 4
  | .rclC _ => 5
  | _ => 6

def Event.kindIdx : Event → Nat
  | .write c _ => c.kindIdx
  | .readResp c => c.kindIdx

def Event.isWrite : Event → Bool
  | .write _ _ => true
  | .readResp _ => false

/-! ## The settle-delay loop of `send`

Lines 54-57:
  for (struct timespec rem = { 0, wait_ns };
       (errno = 0, nanosleep(&rem, &rem) == -1) && errno == EINTR;);
  if (errno) perror("nanosleep"), exit(2);
Each `nanosleep` call either completes, is interrupted by a signal (EINTR,
storing the unslept remainder back into `rem`), or fails otherwise.  The
sequence of outcomes the kernel produces is an oracle list. -/

inductive SleepOutcome where
  | ok                 -- nanosleep returns 0
  | intr (rem : Nat)   -- returns -1, errno == EINTR, remainder written to rem
  | err                -- returns -1, some other errno
deriving DecidableEq, Repr

/-- Runs the retry loop against an oracle.  Returns the requested duration
of every `nanosleep` attempt actually made, and `some true` if the loop
exits with `errno == 0` (command completes normally), `some false` if it
exits with another error (`perror; exit(2)`), `none` if the oracle ran
out while the loop was still retrying. -/
def sleepTrace : Nat → List SleepOutcome → List Nat × Option Bool
  | rem, [] => ([rem], none)
  | rem, SleepOutcome.ok :: _ => ([rem], some true)
  | rem, SleepOutcome.err :: _ => ([rem], some false)
  | rem, SleepOutcome.intr r :: os =>
      let t := sleepTrace r os
      (rem :: t.1, t.2)

/-- `send(wait_ns, fmt, ...)`, lines 47-58: exactly one write of the
command (vfprintf + '\n'), then the settle loop.  The write happens no
matter how the sleep goes. -/
def sendRun (c : Cmd) (waitNs : Nat) (os : List SleepOutcome) :
    List Cmd × (List Nat × Option Bool) :=
  ([c], sleepTrace waitNs os)

/-! ## Exit sites

Every `exit`/`DIE` in the program, with the status it passes:
  line 121 `DIE(1, ...)` missing option parameter;
  line 124 `DIE(1, ...)` unknown option;
  line 129 `perror(dev), exit(1)` open(2) failed;
  line 133 `perror("fdopen"), exit(2)` fdopen failed;
  line 57  `perror("nanosleep"), exit(2)` settle sleep failed;
  line 64  `DIE(2, ...)` read failed or end of stream;
  line 146 `DIE(1, ...)` identity mismatch without -f;
  line 119 `exit(0)` after help; falling off `main` returns 0. -/

inductive ExitReason where
  | success
  | missingOptArg
  | unknownOption
  | deviceOpenFailed
  | fdopenFailed
  | sleepFailed
  | readFailed
  | identityMismatch
deriving DecidableEq, Repr

def exitCode : ExitReason → Nat
  | .success => 0
  | .missingOptArg => 1
  | .unknownOption => 1
  | .deviceOpenFailed => 1
  | .fdopenFailed => 2
  | .sleepFailed => 2
  | .readFailed => 2
  | .identityMismatch => 1

/-! # Theorems -/

/-- C1: status decoding reads exactly three booleans — bit 0 as
constant-voltage mode, bit 5 as OCP enabled, bit 6 as output enabled —
each boolean depending only on its own bit of the status byte; byte 0x61
decodes to all three true. -/
theorem status_decode_bits :
    (∀ b : Nat, decodeStatus b =
      { cv_mode := b.testBit 0, ocp_enabled := b.testBit 5, out_enabled := b.testBit 6 }) ∧
    (∀ b1 b2 : Nat, b1.testBit 0 = b2.testBit 0 →
      (decodeStatus b1).cv_mode = (decodeStatus b2).cv_mode) ∧
    (∀ b1 b2 : Nat, b1.testBit 5 = b2.testBit 5 →
      (decodeStatus b1).ocp_enabled = (decodeStatus b2).ocp_enabled) ∧
    (∀ b1 b2 : Nat, b1.testBit 6 = b2.testBit 6 →
      (decodeStatus b1).out_enabled = (decodeStatus b2).out_enabled) ∧
    decodeStatus 0x61 = { cv_mode := true, ocp_enabled := true, out_enabled := true } := by
  have hd : ∀ b : Nat, decodeStatus b =
      { cv_mode := b.testBit 0, ocp_enabled := b.testBit 5, out_enabled := b.testBit 6 } := by
    intro b
    have e0 : decide (b &&& (0x01 : Nat) ≠ 0) = b.testBit 0 := by
      rw [Nat.and_one_is_mod, Nat.testBit_zero]
      rcases Nat.mod_two_eq_zero_or_one b with h | h <;> simp [h]
    have e5 : decide (b &&& (0x20 : Nat) ≠ 0) = b.testBit 5 := by
      have h := Nat.and_two_pow b 5
      rw [show (2 : Nat) ^ 5 = 0x20 by norm_num] at h
      rw [h]
      cases hb : b.testBit 5 <;> decide
    have e6 : decide (b &&& (0x40 : Nat) ≠ 0) = b.testBit 6 := by
      have h := Nat.and_two_pow b 6
      rw [show (2 : Nat) ^ 6 = 0x40 by norm_num] at h
      rw [h]
      cases hb : b.testBit 6 <;> decide
    simp only [decodeStatus]
    rw [e0, e5, e6]
  refine ⟨hd, ?_, ?_, ?_, by decide⟩
  · intro b1 b2 h
    rw [hd b1, hd b2]
    simpa using h
  · intro b1 b2 h
    rw [hd b1, hd b2]
    simpa using h
  · intro b1 b2 h
    rw [hd b1, hd b2]
    simpa using h

/-- Witness for C1 at concrete bytes. -/
theorem status_decode_bits_witness :
    decodeStatus 0x61 = { cv_mode := true, ocp_enabled := true, out_enabled := true } ∧
    (decodeStatus 0x21).cv_mode = (decodeStatus 0x61).cv_mode :=
  ⟨status_decode_bits.2.2.2.2, status_decode_bits.2.1 0x21 0x61 (by decide)⟩

/-- C10: a STATUS? response consisting only of newline bytes is trimmed to
the empty line, so the decoded status byte is the C string terminator 0 and
all three flags are false; a raw status byte 0x0A is thereby
indistinguishable from status 0. -/
theorem status_newline_response (n : Nat) (h : 0 < n) :
    recvLine (List.replicate n '\n') = some [] ∧
    firstByte [] = 0 ∧
    decodeStatus (firstByte []) =
      { cv_mode := false, ocp_enabled := false, out_enabled := false } ∧
    decodeStatus (firstByte (stripNl [Char.ofNat 0x0A])) = decodeStatus 0 := by
  refine ⟨?_, rfl, by decide, by decide⟩
  have hs : stripNl (List.replicate n '\n') = [] := by
    simp [stripNl, List.dropWhile_eq_nil_iff]
  simp [recvLine, hs, Nat.pos_iff_ne_zero.mp h]

/-- Witness for C10 at `n = 1`. -/
theorem status_newline_response_witness :
    recvLine (List.replicate 1 '\n') = some [] :=
  (status_newline_response 1 (by decide)).1

/-- C4 counterexample: `recv` strips only trailing `'\n'` characters, never
`'\r'`, so a line ending in `"\r\n"` trims to a different value than the
same content ending in `"\n"` or unterminated. -/
theorem recv_trim_cr_counterexample :
    recvLine "abc\r\n".data = some "abc\r".data ∧
    recvLine "abc\n".data = some "abc".data ∧
    recvLine "abc".data = some "abc".data ∧
    some "abc\r".data ≠ some "abc".data := by decide

/-- C4 amended: for content not itself ending in `'\n'`, a line ending in
`"\n"` and an unterminated line trim to the same value (all trailing
newlines are removed), but a line ending in `"\r\n"` keeps its trailing
carriage return. -/
theorem recv_trim_amended (content : List Char) (h : content.getLast? ≠ some '\n') :
    recvLine (content ++ ['\n']) = some content ∧
    (content ≠ [] → recvLine content = some content) ∧
    recvLine (content ++ ['\r', '\n']) = some (content ++ ['\r']) := by
  have hdw : content.reverse.dropWhile (fun c => c = '\n') = content.reverse := by
    cases hr : content.reverse with
    | nil => simp
    | cons a as =>
      have ha : a ≠ '\n' := by
        intro hEq
        apply h
        rw [List.getLast?_eq_head?_reverse, hr, hEq]
        rfl
      simp [List.dropWhile_cons, ha]
  refine ⟨?_, ?_, ?_⟩
  · have : stripNl (content ++ ['\n']) = content := by
      simp [stripNl, List.dropWhile_cons, hdw]
    simp [recvLine, this]
  · intro hne
    have : stripNl content = content := by
      simp [stripNl, hdw]
    simp [recvLine, this, hne]
  · have : stripNl (content ++ ['\r', '\n']) = content ++ ['\r'] := by
      simp [stripNl, List.dropWhile_cons, show ('\r' = '\n') = False by simp, hdw]
    simp [recvLine, this]

/-- Witness for C4 amended at content `"abc"`. -/
theorem recv_trim_amended_witness :
    recvLine "abc".data = some "abc".data :=
  (recv_trim_amended "abc".data (by decide)).2.1 (by decide)

/-- C3: on a four-token identity line, validation without `-f` succeeds
exactly when the tokens are `KORAD`, `KD3005P`, `V6.6` and an `SN:`-prefixed
serial; it never hits undefined behaviour there, and with `-f` every
identity line is accepted; the concrete example strings behave as claimed. -/
theorem validate_identity_tokens :
    (∀ s a b c d : List Char, tokenize s = [a, b, c, d] →
      (validate false (tokenize s) = some true ↔
        (a = "KORAD".data ∧ b = "KD3005P".data ∧ c = "V6.6".data ∧
         "SN:".data.isPrefixOf d))) ∧
    (∀ s a b c d : List Char, tokenize s = [a, b, c, d] →
      validate false (tokenize s) = some true ∨
      validate false (tokenize s) = some false) ∧
    (∀ toks : List (List Char), validate true toks = some true) ∧
    validate false (tokenize "KORAD KD3005P V6.6 SN:01206303".data) = some true ∧
    validate false (tokenize "KORAD KD3005P V6.7 SN:01206303".data) = some false ∧
    validate true (tokenize "KORAD KD3005P V6.7 SN:01206303".data) = some true := by
  refine ⟨?_, ?_, ?_, by decide, by decide, by decide⟩
  · intro s a b c d h
    rw [h]
    by_cases ha : a = "KORAD".data <;>
    by_cases hb : b = "KD3005P".data <;>
    by_cases hc : c = "V6.6".data <;>
      simp [validate, idnMismatch, ha, hb, hc]
  · intro s a b c d h
    rw [h]
    by_cases ha : a = "KORAD".data <;>
    by_cases hb : b = "KD3005P".data <;>
    by_cases hc : c = "V6.6".data <;>
    by_cases hd : "SN:".data.isPrefixOf d <;>
      simp [validate, idnMismatch, ha, hb, hc, hd]
  · intro toks
    simp [validate]

/-- Witness for C3 at the concrete accepted identity string. -/
theorem validate_identity_tokens_witness :
    validate false (tokenize "KORAD KD3005P V6.6 SN:01206303".data) = some true :=
  (validate_identity_tokens.1 "KORAD KD3005P V6.6 SN:01206303".data
      "KORAD".data "KD3005P".data "V6.6".data "SN:01206303".data
      (by decide)).mpr (by decide)

/-- C8: on the three-token identity line `"KORAD KD3005P V6.6"` whose present
tokens all match, the first three `strcmp` checks pass and the code goes on
to evaluate `strncmp(toks[3], "SN:", 3)` with `toks[3] == NULL` — undefined
behaviour (modelled as `none`) instead of the defensive skip and clean
mismatch failure the claim describes. -/
theorem validate_null_token_ub :
    tokenize "KORAD KD3005P V6.6".data =
      ["KORAD".data, "KD3005P".data, "V6.6".data] ∧
    validate false (tokenize "KORAD KD3005P V6.6".data) = none := by decide

/-- C5 counterexample: there is no pair of distinct codes splitting the
failure exits into usage errors on one side and device-open plus
communication failures on the other — opening the device path
(`open(2)` failing, line 129) exits with code 1, the usage code, while
read failures exit with code 2. -/
theorem exit_code_partition_counterexample :
    ¬ ∃ u c : Nat, u ≠ c ∧
      exitCode ExitReason.missingOptArg = u ∧
      exitCode ExitReason.unknownOption = u ∧
      exitCode ExitReason.identityMismatch = u ∧
      exitCode ExitReason.deviceOpenFailed = c ∧
      exitCode ExitReason.fdopenFailed = c ∧
      exitCode ExitReason.readFailed = c ∧
      exitCode ExitReason.sleepFailed = c := by
  rintro ⟨u, c, hne, h1, h2, h3, h4, h5, h6, h7⟩
  simp [exitCode] at h1 h4
  exact hne (h1.symm.trans h4)

/-- C5 amended: usage/argument errors, identity mismatch AND device-open
failure all exit with code 1; the mid-session communication failures
(fdopen, read/end-of-stream, settle-sleep failure) exit with the distinct
code 2; success is 0. -/
theorem exit_code_taxonomy :
    exitCode ExitReason.success = 0 ∧
    exitCode ExitReason.missingOptArg = 1 ∧
    exitCode ExitReason.unknownOption = 1 ∧
    exitCode ExitReason.identityMismatch = 1 ∧
    exitCode ExitReason.deviceOpenFailed = 1 ∧
    exitCode ExitReason.fdopenFailed = 2 ∧
    exitCode ExitReason.readFailed = 2 ∧
    exitCode ExitReason.sleepFailed = 2 ∧
    (1 : Nat) ≠ 0 ∧ (2 : Nat) ≠ 0 ∧ (1 : Nat) ≠ 2 := by decide

theorem mem_optEvent {x : Option (List Char)} {f : List Char → Event} {e : Event} :
    e ∈ optEvent x f ↔ ∃ v, x = some v ∧ e = f v := by
  cases x <;> simp [optEvent]

/-- C2: in every invocation's device traffic, each of the six mutation
commands is written with the 50 ms (50 000 000 ns, non-zero) settle delay
and each of the six query commands with a zero delay; the
mutation/query classification is total over the twelve commands. -/
theorem settle_delay_partition :
    (∀ cfg : Config, (sessionEvents cfg).all settleOk = true) ∧
    (∀ v : List Char,
      (Cmd.isetC v).isMutation = true ∧ (Cmd.vsetC v).isMutation = true ∧
      (Cmd.outC v).isMutation = true ∧ (Cmd.ocpC v).isMutation = true ∧
      (Cmd.savC v).isMutation = true ∧ (Cmd.rclC v).isMutation = true) ∧
    (Cmd.idnQ.isMutation = false ∧ Cmd.statusQ.isMutation = false ∧
     Cmd.vsetQ.isMutation = false ∧ Cmd.isetQ.isMutation = false ∧
     Cmd.voutQ.isMutation = false ∧ Cmd.ioutQ.isMutation = false) ∧
    (50000000 : Nat) ≠ 0 := by
  refine ⟨?_, fun v => ⟨rfl, rfl, rfl, rfl, rfl, rfl⟩,
    ⟨rfl, rfl, rfl, rfl, rfl, rfl⟩, by decide⟩
  intro cfg
  rcases cfg with ⟨i, u, o, p, s, r, ps⟩
  cases i <;> cases u <;> cases o <;> cases p <;> cases s <;> cases r <;> cases ps <;>
    simp [sessionEvents, configEvents, optEvent, commE, settleOk, Cmd.isMutation]

/-- C7: the configuration commands of one invocation are always emitted in
the fixed order current limit, voltage limit, output, OCP, save, restore;
an action that was not requested contributes no command, a requested one
contributes its command; no response read happens during configuration. -/
theorem config_order_fixed :
    (∀ cfg : Config, ((configEvents cfg).map Event.kindIdx).Pairwise (· ≤ ·)) ∧
    (∀ cfg : Config, (configEvents cfg).all Event.isWrite = true) ∧
    (∀ cfg : Config, cfg.iset = none →
      ∀ v w, Event.write (Cmd.isetC v) w ∉ configEvents cfg) ∧
    (∀ cfg : Config, cfg.uset = none →
      ∀ v w, Event.write (Cmd.vsetC v) w ∉ configEvents cfg) ∧
    (∀ cfg : Config, cfg.out = none →
      ∀ v w, Event.write (Cmd.outC v) w ∉ configEvents cfg) ∧
    (∀ cfg : Config, cfg.ocp = none →
      ∀ v w, Event.write (Cmd.ocpC v) w ∉ configEvents cfg) ∧
    (∀ cfg : Config, cfg.save = none →
      ∀ v w, Event.write (Cmd.savC v) w ∉ configEvents cfg) ∧
    (∀ cfg : Config, cfg.rest = none →
      ∀ v w, Event.write (Cmd.rclC v) w ∉ configEvents cfg) ∧
    (∀ cfg : Config, ∀ v, cfg.iset = some v →
      Event.write (Cmd.isetC v) 50000000 ∈ configEvents cfg) ∧
    (∀ cfg : Config, ∀ v, cfg.uset = some v →
      Event.write (Cmd.vsetC v) 50000000 ∈ configEvents cfg) ∧
    (∀ cfg : Config, ∀ v, cfg.out = some v →
      Event.write (Cmd.outC v) 50000000 ∈ configEvents cfg) ∧
    (∀ cfg : Config, ∀ v, cfg.ocp = some v →
      Event.write (Cmd.ocpC v) 50000000 ∈ configEvents cfg) ∧
    (∀ cfg : Config, ∀ v, cfg.save = some v →
      Event.write (Cmd.savC v) 50000000 ∈ configEvents cfg) ∧
    (∀ cfg : Config, ∀ v, cfg.rest = some v →
      Event.write (Cmd.rclC v) 50000000 ∈ configEvents cfg) := by
  refine ⟨?_, ?_, ?_, ?_, ?_, ?_, ?_, ?_, ?_, ?_, ?_, ?_, ?_, ?_⟩
  · intro cfg
    rcases cfg with ⟨i, u, o, p, s, r, ps⟩
    cases i <;> cases u <;> cases o <;> cases p <;> cases s <;> cases r <;>
      simp [configEvents, optEvent, Event.kindIdx, Cmd.kindIdx]
  · intro cfg
    rcases cfg with ⟨i, u, o, p, s, r, ps⟩
    cases i <;> cases u <;> cases o <;> cases p <;> cases s <;> cases r <;>
      simp [configEvents, optEvent, Event.isWrite]
  all_goals
    first
    | (intro cfg h v w hmem
       simp [configEvents, List.mem_append, mem_optEvent, h] at hmem)
    | (intro cfg v h
       simp [configEvents, List.mem_append, mem_optEvent, h])

/-- Witness for C7: a lone save request emits exactly its own command. -/
theorem config_order_fixed_witness :
    Event.write (Cmd.savC "3".data) 50000000 ∈
      configEvents ⟨none, none, none, none, some "3".data, none, false⟩ :=
  config_order_fixed.2.2.2.2.2.2.2.2.2.2.2.2.1
    ⟨none, none, none, none, some "3".data, none, false⟩ "3".data rfl

/-- C6 counterexample: with `-U 5.00 -I 1.000` the program writes
`ISET1:1.000` first and `VSET1:5.00` second — the current-limit command is
first, not the voltage-limit command as the claim states. -/
theorem iset_vset_order_counterexample :
    configEvents ⟨some "1.000".data, some "5.00".data, none, none, none, none, false⟩ =
      [Event.write (Cmd.isetC "1.000".data) 50000000,
       Event.write (Cmd.vsetC "5.00".data) 50000000] ∧
    (configEvents
        ⟨some "1.000".data, some "5.00".data, none, none, none, none, false⟩).head? ≠
      some (Event.write (Cmd.vsetC "5.00".data) 50000000) := by decide

/-- C6 amended: with voltage-limit 5.00 and current-limit 1.000 requested
together, the program issues `ISET1:1.000` first and `VSET1:5.00` second,
each with the non-zero 50 ms settle delay, and no response read occurs. -/
theorem iset_vset_order_amended :
    configEvents ⟨some "1.000".data, some "5.00".data, none, none, none, none, false⟩ =
      [Event.write (Cmd.isetC "1.000".data) 50000000,
       Event.write (Cmd.vsetC "5.00".data) 50000000] ∧
    (Cmd.isetC "1.000".data).format = "ISET1:1.000".data ∧
    (Cmd.vsetC "5.00".data).format = "VSET1:5.00".data ∧
    (50000000 : Nat) ≠ 0 ∧
    (configEvents
        ⟨some "1.000".data, some "5.00".data, none, none, none, none, false⟩).all
      Event.isWrite = true := by decide

/-- C9: when `nanosleep` is interrupted any number of times, each retry
requests exactly the remainder the previous call reported and the settle
completes normally; a non-EINTR failure ends the loop fatally
(`exit(2)`); the command itself is written exactly once no matter how the
sleep goes. -/
theorem settle_eintr_resume :
    (∀ (w : Nat) (rems : List Nat),
      sleepTrace w (rems.map SleepOutcome.intr ++ [SleepOutcome.ok]) =
        (w :: rems, some true)) ∧
    (∀ (w : Nat) (rems : List Nat),
      sleepTrace w (rems.map SleepOutcome.intr ++ [SleepOutcome.err]) =
        (w :: rems, some false)) ∧
    (∀ (c : Cmd) (w : Nat) (os : List SleepOutcome), (sendRun c w os).1 = [c]) := by
  have h1 : ∀ (rems : List Nat) (w : Nat),
      sleepTrace w (rems.map SleepOutcome.intr ++ [SleepOutcome.ok]) =
        (w :: rems, some true) := by
    intro rems
    induction rems with
    | nil => intro w; rfl
    | cons r rs ih => intro w; simp [sleepTrace, ih r]
  have h2 : ∀ (rems : List Nat) (w : Nat),
      sleepTrace w (rems.map SleepOutcome.intr ++ [SleepOutcome.err]) =
        (w :: rems, some false) := by
    intro rems
    induction rems with
    | nil => intro w; rfl
    | cons r rs ih => intro w; simp [sleepTrace, ih r]
  exact ⟨fun w rems => h1 rems w, fun w rems => h2 rems w, fun c w os => rfl⟩

end Korad
